import Mathlib

/-!
Shallow embedding of `src/sevices.js`: a cached, timeout-wrapped fetch
service.  The module exports `initServices(config)`, which merges a partial
configuration over environment-sourced defaults and closes over a single
mutable cache slot, exposing `getWelcomeMessage(force)`, `healthCheck()` and
`clearCache()`.

The network is nondeterministic, so each operation that calls
`fetchWithTimeout` takes a `FetchOutcome` parameter describing what the host
`fetch` did for that request (timed out, or delivered a response with a
status, an optional body text and an optional parsed JSON body).  Time is
the `now` parameter: `Date.now()` as read once at the top of
`getWelcomeMessage`.  State (the cache slot) is passed and returned
explicitly.
-/

namespace Sevices

/-- JavaScript primitive values, as far as the module can observe them:
numbers, strings, booleans and `null`.  Used for JSON field contents and for
raw configuration fields (which the code never validates). -/
inductive JVal where
  | num (n : Int)
  | str (s : String)
  | boolean (b : Bool)
  | null
deriving DecidableEq, Repr

/-- JavaScript truthiness of a primitive value: `0`, `""`, `false` and
`null` are falsy, everything else is truthy. -/
def JVal.truthy : JVal → Bool
  | .num n => n != 0
  | .str s => s != ""
  | .boolean b => b
  | .null => false

/-- A parsed JSON body as `getWelcomeMessage` observes it: either a
primitive value, or an object whose `message` property is present or
absent.  (The code only ever reads `data` itself and `data.message`.) -/
inductive JsonData where
  | val (v : JVal)
  | obj (message : Option JVal)
deriving DecidableEq, Repr

/-- Truthiness of a parsed JSON body: objects are always truthy, primitives
by `JVal.truthy`. -/
def JsonData.truthy : JsonData → Bool
  | .val v => v.truthy
  | .obj _ => true

/-- The `data.message` property access: the field for an object carrying
one, `undefined` (here `none`) otherwise. -/
def JsonData.messageField : JsonData → Option JVal
  | .val _ => none
  | .obj m => m

/-- An HTTP response delivered to `fetchWithTimeout`: the status code,
the result of `res.text()` (`none` when reading the body fails) and the
result of `res.json()` (`none` when the body does not parse). -/
structure HttpResponse where
  status : Nat
  textResult : Option String
  jsonResult : Option JsonData
deriving DecidableEq, Repr

/-- `res.ok` per the Fetch standard: status in the range 200..299. -/
def HttpResponse.ok (r : HttpResponse) : Bool :=
  200 ≤ r.status && r.status ≤ 299

/-- What the host `fetch` did for one request: either the timeout timer
fired first (the controller aborts the in-flight request and the awaited
`fetch` rejects), or a response arrived in time. -/
inductive FetchOutcome where
  | timeout
  | response (res : HttpResponse)
deriving DecidableEq, Repr

/-- The failures `fetchWithTimeout` can surface: the abort-driven timeout
rejection, or the `HTTP ${status}: ${txt}` error thrown on a non-2xx
response (carrying the status and the best-effort body text). -/
inductive ServiceError where
  | timeout
  | http (status : Nat) (body : String)
deriving DecidableEq, Repr

/-- The `.message` of the corresponding JavaScript error object: the thrown
`Error` carries `HTTP ${status}: ${txt}`; an aborted fetch rejects with the
host abort error, whose message is the fixed non-empty string
`This operation was aborted`. -/
def ServiceError.message : ServiceError → String
  | .timeout => "This operation was aborted"
  | .http status body => "HTTP " ++ toString status ++ ": " ++ body

/-- `fetchWithTimeout(url, options)` (lines 23-37): on timeout the awaited
`fetch` rejects and the error propagates; on a response, a non-2xx status
throws with the status and best-effort body text (`res.text().catch(() =>
'')`), and a 2xx status returns the parsed body, with a parse failure
replaced by the empty object (`res.json().catch(() => ({}))`). -/
def fetchWithTimeout (net : FetchOutcome) : Except ServiceError JsonData :=
  match net with
  | .timeout => .error .timeout
  | .response res =>
      if res.ok then
        .ok (res.jsonResult.getD (.obj none))
      else
        .error (.http res.status (res.textResult.getD ""))

/-- The cache slot `{ value, expiresAt }` (line 21): `value` is `null`
(`none`) or the last stored message, `expiresAt` an absolute instant. -/
structure Cache where
  value : Option JVal
  expiresAt : Nat
deriving DecidableEq, Repr

/-- The slot as initialised at construction: `{ value: null, expiresAt: 0 }`. -/
def Cache.init : Cache := { value := none, expiresAt := 0 }

/-- Truthiness of the stored `cache.value`: `null` is falsy, a stored value
is tested by `JVal.truthy`. -/
def truthyOpt : Option JVal → Bool
  | none => false
  | some v => v.truthy

/-- The freshness test as written on line 41: `cache.value &&
cache.expiresAt > now` (truthiness of the value, strict comparison on the
expiry). -/
def Cache.freshAt (c : Cache) (now : Nat) : Bool :=
  truthyOpt c.value && decide (c.expiresAt > now)

/-- The effective numeric configuration as the operations consume it. -/
structure Config where
  apiUrl : String
  timeoutMs : Nat
  cacheTtlMs : Nat
deriving DecidableEq, Repr

/-- `(data && data.message) || 'Welcome'` (line 46): a falsy body or an
absent/falsy `message` field yields the literal `'Welcome'`; a truthy
`message` field is taken as is. -/
def extractMessage (data : JsonData) : JVal :=
  if data.truthy then
    match data.messageField with
    | some v => if v.truthy then v else .str "Welcome"
    | none => .str "Welcome"
  else .str "Welcome"

/-- Observable outcome of one `getWelcomeMessage` call: the returned value
or propagated error, the cache slot after the call, and whether a network
request was issued. -/
structure GetOutcome where
  result : Except ServiceError JVal
  cache : Cache
  fetched : Bool

/-- `getWelcomeMessage(force)` (lines 39-49): with `force` false and a
fresh slot, return the cached value without fetching; otherwise fetch, and
on success store `{ value: message, expiresAt: now + cfg.cacheTtlMs }`
(with `now` read at the top of the call) and return the message, while a
fetch error propagates and leaves the slot untouched. -/
def getWelcomeMessage (cfg : Config) (cache : Cache) (now : Nat) (force : Bool)
    (net : FetchOutcome) : GetOutcome :=
  if !force && cache.freshAt now then
    { result := .ok (cache.value.getD .null), cache := cache, fetched := false }
  else
    match fetchWithTimeout net with
    | .error e => { result := .error e, cache := cache, fetched := true }
    | .ok data =>
        let message := extractMessage data
        { result := .ok message
          cache := { value := some message, expiresAt := now + cfg.cacheTtlMs }
          fetched := true }

/-- The record returned by `healthCheck` (lines 56 and 58). -/
structure HealthResult where
  ok : Bool
  info : String
  endpoint : String
deriving DecidableEq, Repr

/-- `healthCheck()` (lines 51-60): probe the endpoint through
`fetchWithTimeout`; a completed probe yields `{ ok: true, info: 'up',
endpoint }`, and the `catch` converts any error into `{ ok: false, info:
err.message || 'unreachable', endpoint }`.  The function is total: no error
escapes.  It never reads or writes the cache slot. -/
def healthCheck (cfg : Config) (net : FetchOutcome) : HealthResult :=
  match fetchWithTimeout net with
  | .ok _ => { ok := true, info := "up", endpoint := cfg.apiUrl }
  | .error err =>
      { ok := false
        info := if err.message = "" then "unreachable" else err.message
        endpoint := cfg.apiUrl }

/-- `clearCache()` (lines 62-64): reset the slot to
`{ value: null, expiresAt: 0 }`. -/
def clearCache : Cache := { value := none, expiresAt := 0 }

/-! ### Configuration construction (lines 13-20)

`DEFAULT_CONFIG` coerces environment strings with `Number(e) || d` and
`e || d`; `initServices` computes `cfg = { ...DEFAULT_CONFIG, ...config }`,
a field-wise merge in which an explicitly supplied field wins as is. -/

/-- The relevant process environment: the three variables the module reads,
each absent (`none`) or set to a string. -/
structure Env where
  welcomeApiUrl : Option String
  serviceTimeoutMs : Option String
  cacheTtlMs : Option String
deriving DecidableEq, Repr

/-- JavaScript `Number()` on a string, modelled on the inputs of interest:
the empty string coerces to `0`, a decimal digit string to its value, and
anything else to `NaN` (`none`). -/
def jsNumber (s : String) : Option Int :=
  if s = "" then some 0
  else if s.data.all Char.isDigit then
    some (Int.ofNat (s.data.foldl (fun n c => n * 10 + (c.toNat - 48)) 0))
  else none

/-- `Number(envVar) || d`: an unset variable (`Number(undefined)` is `NaN`),
a non-numeric string (`NaN`) and the string `"0"` (falsy `0`) all fall back
to the default. -/
def numEnvOr (v : Option String) (d : Int) : Int :=
  match v with
  | none => d
  | some s =>
      match jsNumber s with
      | none => d
      | some n => if n = 0 then d else n

/-- `envVar || d`: an unset or empty-string variable falls back. -/
def strEnvOr (v : Option String) (d : String) : String :=
  match v with
  | none => d
  | some s => if s = "" then d else s

/-- A raw configuration record whose fields are untyped JavaScript values:
the merge on line 20 performs no coercion, so a malformed supplied field
survives into the effective configuration. -/
structure RawConfig where
  apiUrl : JVal
  timeoutMs : JVal
  cacheTtlMs : JVal
deriving DecidableEq, Repr

/-- `DEFAULT_CONFIG` (lines 13-17), as a function of the environment. -/
def defaultConfigOf (env : Env) : RawConfig :=
  { apiUrl := .str (strEnvOr env.welcomeApiUrl "https://api.example.com/welcome")
    timeoutMs := .num (numEnvOr env.serviceTimeoutMs 5000)
    cacheTtlMs := .num (numEnvOr env.cacheTtlMs 30000) }

/-- A partial configuration object passed to `initServices`: each field
present (with an arbitrary, unvalidated value) or absent. -/
structure PartialConfig where
  apiUrl : Option JVal
  timeoutMs : Option JVal
  cacheTtlMs : Option JVal
deriving DecidableEq, Repr

/-- `const cfg = { ...DEFAULT_CONFIG, ...config }` (line 20): field-wise,
a field of `config` overrides the default, an absent field keeps it. -/
def initServicesConfig (env : Env) (config : PartialConfig) : RawConfig :=
  { apiUrl := config.apiUrl.getD (defaultConfigOf env).apiUrl
    timeoutMs := config.timeoutMs.getD (defaultConfigOf env).timeoutMs
    cacheTtlMs := config.cacheTtlMs.getD (defaultConfigOf env).cacheTtlMs }

/-- An environment in which none of the three variables is set. -/
def emptyEnv : Env :=
  { welcomeApiUrl := none, serviceTimeoutMs := none, cacheTtlMs := none }

/-- The cache-slot invariant: the stored value is `null` or truthy (in
particular, never the empty string). -/
def cacheWf (c : Cache) : Bool :=
  match c.value with
  | none => true
  | some v => v.truthy

/-! ### Helper lemmas -/

/-- The extracted message is always truthy: a truthy `data.message` is
returned unchanged, and every other case yields the non-empty literal
`'Welcome'`. -/
theorem extractMessage_truthy (d : JsonData) : (extractMessage d).truthy = true := by
  have hwelcome : (JVal.str "Welcome").truthy = true := by decide
  unfold extractMessage
  by_cases hd : d.truthy = true
  · rw [if_pos hd]
    cases hm : d.messageField with
    | none => exact hwelcome
    | some v =>
        show (if v.truthy = true then v else JVal.str "Welcome").truthy = true
        by_cases hv : v.truthy = true
        · rw [if_pos hv]; exact hv
        · rw [if_neg hv]; exact hwelcome
  · rw [if_neg hd]; exact hwelcome

/-- If the call is forced or the slot is stale, the line-41 guard is false
and the fetch branch runs. -/
theorem fetch_guard_false (force : Bool) (c : Cache) (now : Nat)
    (hfetch : (force || !(c.freshAt now)) = true) :
    (!force && c.freshAt now) = false := by
  cases force <;> cases h : c.freshAt now <;> simp_all

/-- On the fetch path with a successful fetch, `getWelcomeMessage` returns
the extracted message and overwrites the slot with it and expiry
`now + cacheTtlMs`. -/
theorem getWelcomeMessage_ok_eq (cfg : Config) (c : Cache) (now : Nat) (force : Bool)
    (net : FetchOutcome) (data : JsonData)
    (hfetch : (force || !(c.freshAt now)) = true)
    (hok : fetchWithTimeout net = .ok data) :
    getWelcomeMessage cfg c now force net =
      { result := .ok (extractMessage data)
        cache := { value := some (extractMessage data), expiresAt := now + cfg.cacheTtlMs }
        fetched := true } := by
  unfold getWelcomeMessage
  rw [fetch_guard_false force c now hfetch, hok]
  simp

/-- On the fetch path with a failing fetch, `getWelcomeMessage` propagates
the error and leaves the slot untouched. -/
theorem getWelcomeMessage_error_eq (cfg : Config) (c : Cache) (now : Nat) (force : Bool)
    (net : FetchOutcome) (e : ServiceError)
    (hfetch : (force || !(c.freshAt now)) = true)
    (herr : fetchWithTimeout net = .error e) :
    getWelcomeMessage cfg c now force net =
      { result := .error e, cache := c, fetched := true } := by
  unfold getWelcomeMessage
  rw [fetch_guard_false force c now hfetch, herr]
  simp

/-! ### Claim theorems -/

/-- C1: whenever the cache slot is fresh (a value is present and truthy and
the current time is strictly before the expiry instant), a non-forced call
to `getWelcomeMessage` returns exactly the cached value, issues no network
request, and leaves the cache slot unchanged — whatever the network would
have done. -/
theorem c1_fresh_cache_hit (cfg : Config) (c : Cache) (now : Nat) (net : FetchOutcome)
    (v : JVal) (hv : c.value = some v) (htruthy : v.truthy = true)
    (hfresh : now < c.expiresAt) :
    getWelcomeMessage cfg c now false net =
      { result := .ok v, cache := c, fetched := false } := by
  unfold getWelcomeMessage
  have hguard : (!false && c.freshAt now) = true := by
    simp [Cache.freshAt, truthyOpt, hv, htruthy, hfresh]
  rw [hguard]
  simp [hv]

/-- C1 witness: a concrete fresh slot is served from cache. -/
theorem c1_witness :
    getWelcomeMessage { apiUrl := "u", timeoutMs := 5000, cacheTtlMs := 30000 }
        { value := some (.str "Hi"), expiresAt := 10 } 3 false .timeout =
      { result := .ok (.str "Hi")
        cache := { value := some (.str "Hi"), expiresAt := 10 }
        fetched := false } :=
  c1_fresh_cache_hit _ _ 3 .timeout (.str "Hi") rfl (by decide) (by decide)

/-- C2: whenever a call to `getWelcomeMessage` reaches the fetch (forced or
stale slot) and the fetch fails, the cache slot after the call equals the
slot before it and the very error produced by `fetchWithTimeout` is
propagated unchanged — there is no fallback to a stale cached value. -/
theorem c2_error_leaves_cache (cfg : Config) (c : Cache) (now : Nat) (force : Bool)
    (net : FetchOutcome) (e : ServiceError)
    (hfetch : (force || !(c.freshAt now)) = true)
    (herr : fetchWithTimeout net = .error e) :
    (getWelcomeMessage cfg c now force net).cache = c ∧
    (getWelcomeMessage cfg c now force net).result = .error e := by
  rw [getWelcomeMessage_error_eq cfg c now force net e hfetch herr]
  exact ⟨rfl, rfl⟩

/-- C2 witness: a 500 response on an empty cache propagates the HTTP error
and leaves the slot empty. -/
theorem c2_witness :
    (getWelcomeMessage { apiUrl := "u", timeoutMs := 5000, cacheTtlMs := 30000 }
        Cache.init 0 false
        (.response { status := 500, textResult := some "boom", jsonResult := none })).cache
      = Cache.init ∧
    (getWelcomeMessage { apiUrl := "u", timeoutMs := 5000, cacheTtlMs := 30000 }
        Cache.init 0 false
        (.response { status := 500, textResult := some "boom", jsonResult := none })).result
      = .error (.http 500 "boom") :=
  c2_error_leaves_cache _ Cache.init 0 false _ _ (by decide) rfl

/-- C3: whenever a call to `getWelcomeMessage` reaches the fetch and the
fetch succeeds with parsed data, the cache slot is overwritten with the
extracted message and expiry `now + cfg.cacheTtlMs` (the current time read
at the top of the call plus the configured TTL), and that message is
returned. -/
theorem c3_success_overwrites_cache (cfg : Config) (c : Cache) (now : Nat) (force : Bool)
    (net : FetchOutcome) (data : JsonData)
    (hfetch : (force || !(c.freshAt now)) = true)
    (hok : fetchWithTimeout net = .ok data) :
    getWelcomeMessage cfg c now force net =
      { result := .ok (extractMessage data)
        cache := { value := some (extractMessage data), expiresAt := now + cfg.cacheTtlMs }
        fetched := true } :=
  getWelcomeMessage_ok_eq cfg c now force net data hfetch hok

/-- C3 witness: a 200 response with body `{"message": "Hi there"}` stores
`"Hi there"` with expiry `now + TTL` and returns it. -/
theorem c3_witness :
    getWelcomeMessage { apiUrl := "u", timeoutMs := 5000, cacheTtlMs := 30000 }
        Cache.init 7 false
        (.response { status := 200, textResult := some ""
                     jsonResult := some (.obj (some (.str "Hi there"))) }) =
      { result := .ok (.str "Hi there")
        cache := { value := some (.str "Hi there"), expiresAt := 7 + 30000 }
        fetched := true } :=
  c3_success_overwrites_cache _ Cache.init 7 false _
    (.obj (some (.str "Hi there"))) (by decide) rfl

/-- C4: whenever the fetch runs and a 2xx response arrives whose body is
unparsable, or parses to data whose `message` property is absent or falsy,
the call returns the literal `'Welcome'` and stores that default in the
cache slot (with expiry `now + TTL`). -/
theorem c4_default_welcome (cfg : Config) (c : Cache) (now : Nat) (force : Bool)
    (res : HttpResponse)
    (hfetch : (force || !(c.freshAt now)) = true)
    (hok : res.ok = true)
    (hbad : res.jsonResult = none ∨
      ∃ d, res.jsonResult = some d ∧
        (d.messageField = none ∨ ∃ v, d.messageField = some v ∧ v.truthy = false)) :
    getWelcomeMessage cfg c now force (.response res) =
      { result := .ok (.str "Welcome")
        cache := { value := some (.str "Welcome"), expiresAt := now + cfg.cacheTtlMs }
        fetched := true } := by
  have hfw : fetchWithTimeout (.response res) = .ok (res.jsonResult.getD (.obj none)) := by
    simp [fetchWithTimeout, hok]
  have hmsg : extractMessage (res.jsonResult.getD (.obj none)) = .str "Welcome" := by
    rcases hbad with h | ⟨d, hd, hbad2⟩
    · rw [h]; rfl
    · rw [hd]
      show extractMessage d = .str "Welcome"
      rcases hbad2 with hmf | ⟨v, hmf, hv⟩
      · simp [extractMessage, hmf]
      · simp [extractMessage, hmf, hv]
  rw [getWelcomeMessage_ok_eq cfg c now force _ _ hfetch hfw, hmsg]

/-- C4 witness: a 200 response with an unparsable body caches and returns
`'Welcome'`. -/
theorem c4_witness :
    getWelcomeMessage { apiUrl := "u", timeoutMs := 5000, cacheTtlMs := 30000 }
        Cache.init 2 false
        (.response { status := 200, textResult := some "", jsonResult := none }) =
      { result := .ok (.str "Welcome")
        cache := { value := some (.str "Welcome"), expiresAt := 2 + 30000 }
        fetched := true } :=
  c4_default_welcome _ Cache.init 2 false _ (by decide) (by decide) (Or.inl rfl)

/-- C5: whenever the fetch runs and a non-2xx response arrives, the call
fails with the HTTP error carrying that status code and the best-effort
body text, and when reading the body itself fails the carried body text is
the empty string while the status code is still reported. -/
theorem c5_http_error (cfg : Config) (c : Cache) (now : Nat) (force : Bool)
    (res : HttpResponse)
    (hfetch : (force || !(c.freshAt now)) = true)
    (hbad : res.ok = false) :
    fetchWithTimeout (.response res) =
      .error (.http res.status (res.textResult.getD "")) ∧
    (getWelcomeMessage cfg c now force (.response res)).result =
      .error (.http res.status (res.textResult.getD "")) ∧
    (res.textResult = none →
      (getWelcomeMessage cfg c now force (.response res)).result =
        .error (.http res.status "")) := by
  have hfw : fetchWithTimeout (.response res) =
      .error (.http res.status (res.textResult.getD "")) := by
    simp [fetchWithTimeout, hbad]
  refine ⟨hfw, ?_, ?_⟩
  · rw [getWelcomeMessage_error_eq cfg c now force _ _ hfetch hfw]
  · intro ht
    rw [getWelcomeMessage_error_eq cfg c now force _ _ hfetch hfw, ht]
    rfl

/-- C5 witness: a 503 response whose body cannot be read yields the HTTP
error with status 503 and an empty body string. -/
theorem c5_witness :
    fetchWithTimeout
        (.response { status := 503, textResult := none, jsonResult := none }) =
      .error (.http 503 "") ∧
    (getWelcomeMessage { apiUrl := "u", timeoutMs := 5000, cacheTtlMs := 30000 }
        Cache.init 0 true
        (.response { status := 503, textResult := none, jsonResult := none })).result =
      .error (.http 503 "") ∧
    ((none : Option String) = none →
      (getWelcomeMessage { apiUrl := "u", timeoutMs := 5000, cacheTtlMs := 30000 }
          Cache.init 0 true
          (.response { status := 503, textResult := none, jsonResult := none })).result =
        .error (.http 503 "")) :=
  c5_http_error _ Cache.init 0 true _ (by decide) (by decide)

/-- C6: whenever the fetch runs and times out, `fetchWithTimeout` fails
with the timeout error — a failure distinct from every HTTP error — and
`getWelcomeMessage` propagates it to its caller, leaving the cache slot
unchanged. -/
theorem c6_timeout (cfg : Config) (c : Cache) (now : Nat) (force : Bool)
    (hfetch : (force || !(c.freshAt now)) = true) :
    fetchWithTimeout .timeout = .error .timeout ∧
    (∀ s b, ServiceError.timeout ≠ ServiceError.http s b) ∧
    (getWelcomeMessage cfg c now force .timeout).result = .error .timeout ∧
    (getWelcomeMessage cfg c now force .timeout).cache = c := by
  have hfw : fetchWithTimeout .timeout = .error .timeout := rfl
  refine ⟨hfw, ?_, ?_, ?_⟩
  · intro s b h
    exact nomatch h
  · rw [getWelcomeMessage_error_eq cfg c now force _ _ hfetch hfw]
  · rw [getWelcomeMessage_error_eq cfg c now force _ _ hfetch hfw]

/-- C6 witness: a forced call on an empty cache that times out fails with
the timeout error and leaves the slot empty. -/
theorem c6_witness :
    fetchWithTimeout .timeout = .error .timeout ∧
    (∀ s b, ServiceError.timeout ≠ ServiceError.http s b) ∧
    (getWelcomeMessage { apiUrl := "u", timeoutMs := 5000, cacheTtlMs := 30000 }
        Cache.init 0 true .timeout).result = .error .timeout ∧
    (getWelcomeMessage { apiUrl := "u", timeoutMs := 5000, cacheTtlMs := 30000 }
        Cache.init 0 true .timeout).cache = Cache.init :=
  c6_timeout _ Cache.init 0 true (by decide)

/-- C7: `healthCheck` is a total function (every failure is caught): a
probe that completes yields `{ ok: true, info: 'up', endpoint }`, and a
probe that fails (timeout or HTTP error) yields `{ ok: false, info: the
error message, or 'unreachable' when that message is empty, endpoint }`. -/
theorem c7_healthcheck (cfg : Config) (net : FetchOutcome) :
    ((∃ d, fetchWithTimeout net = .ok d) →
      healthCheck cfg net = { ok := true, info := "up", endpoint := cfg.apiUrl }) ∧
    (∀ e, fetchWithTimeout net = .error e →
      healthCheck cfg net =
        { ok := false
          info := if e.message = "" then "unreachable" else e.message
          endpoint := cfg.apiUrl }) := by
  constructor
  · rintro ⟨d, hd⟩
    unfold healthCheck
    rw [hd]
  · intro e he
    unfold healthCheck
    rw [he]

/-- C7 witness: a timed-out probe reports the abort message, a completed
one reports up. -/
theorem c7_witness :
    healthCheck { apiUrl := "u", timeoutMs := 5000, cacheTtlMs := 30000 } .timeout =
      { ok := false, info := if (ServiceError.timeout).message = ""
          then "unreachable" else (ServiceError.timeout).message
        endpoint := "u" } ∧
    healthCheck { apiUrl := "u", timeoutMs := 5000, cacheTtlMs := 30000 }
        (.response { status := 204, textResult := some "", jsonResult := none }) =
      { ok := true, info := "up", endpoint := "u" } :=
  ⟨(c7_healthcheck _ .timeout).2 .timeout rfl,
   (c7_healthcheck _ _).1 ⟨.obj none, rfl⟩⟩

/-- C8: a forced call (`force = true`) always takes the fetch branch,
whatever the cache slot and however fresh it is. -/
theorem c8_force_fetches (cfg : Config) (c : Cache) (now : Nat) (net : FetchOutcome) :
    (getWelcomeMessage cfg c now true net).fetched = true := by
  unfold getWelcomeMessage
  cases hfw : fetchWithTimeout net with
  | ok d => simp [hfw]
  | error e => simp [hfw]

/-- C9 counterexample: a malformed (non-numeric) `timeoutMs` supplied in
the configuration object survives the line-20 spread merge unchanged — it
does not fall back to the default 5000. -/
theorem c9_counterexample :
    (initServicesConfig emptyEnv
        { apiUrl := none, timeoutMs := some (.str "not-a-number"), cacheTtlMs := none }).timeoutMs
      = JVal.str "not-a-number" ∧
    JVal.str "not-a-number" ≠ JVal.num 5000 :=
  ⟨rfl, fun h => nomatch h⟩

/-- C9 (amended): the effective configuration is the field-wise merge of
the supplied object over the defaults — an explicitly supplied field wins
as is, with no coercion or validation, and a missing field takes the
default — while the fall-back of malformed numeric values to the defaults
5000 and 30000 applies only to the environment-sourced default
configuration. -/
theorem c9_merge_and_env_fallback (env : Env) (config : PartialConfig) :
    (∀ v, config.apiUrl = some v → (initServicesConfig env config).apiUrl = v) ∧
    (config.apiUrl = none →
      (initServicesConfig env config).apiUrl = (defaultConfigOf env).apiUrl) ∧
    (∀ v, config.timeoutMs = some v → (initServicesConfig env config).timeoutMs = v) ∧
    (config.timeoutMs = none →
      (initServicesConfig env config).timeoutMs = (defaultConfigOf env).timeoutMs) ∧
    (∀ v, config.cacheTtlMs = some v → (initServicesConfig env config).cacheTtlMs = v) ∧
    (config.cacheTtlMs = none →
      (initServicesConfig env config).cacheTtlMs = (defaultConfigOf env).cacheTtlMs) ∧
    (∀ s, jsNumber s = none →
      (defaultConfigOf { env with serviceTimeoutMs := some s }).timeoutMs = JVal.num 5000) ∧
    (∀ s, jsNumber s = none →
      (defaultConfigOf { env with cacheTtlMs := some s }).cacheTtlMs = JVal.num 30000) ∧
    (defaultConfigOf emptyEnv).timeoutMs = JVal.num 5000 ∧
    (defaultConfigOf emptyEnv).cacheTtlMs = JVal.num 30000 := by
  refine ⟨?_, ?_, ?_, ?_, ?_, ?_, ?_, ?_, rfl, rfl⟩
  · intro v hv; simp [initServicesConfig, hv]
  · intro hv; simp [initServicesConfig, hv]
  · intro v hv; simp [initServicesConfig, hv]
  · intro hv; simp [initServicesConfig, hv]
  · intro v hv; simp [initServicesConfig, hv]
  · intro hv; simp [initServicesConfig, hv]
  · intro s hs; simp [defaultConfigOf, numEnvOr, hs]
  · intro s hs; simp [defaultConfigOf, numEnvOr, hs]

/-- C9 witness: a supplied numeric `timeoutMs` wins as is, and a malformed
environment value falls back to 5000. -/
theorem c9_witness :
    (initServicesConfig emptyEnv
        { apiUrl := none, timeoutMs := some (.num 1234), cacheTtlMs := none }).timeoutMs
      = JVal.num 1234 ∧
    (defaultConfigOf { emptyEnv with serviceTimeoutMs := some "xyz" }).timeoutMs
      = JVal.num 5000 :=
  ⟨(c9_merge_and_env_fallback emptyEnv _).2.2.1 _ rfl,
   (c9_merge_and_env_fallback emptyEnv
      { apiUrl := none, timeoutMs := none, cacheTtlMs := none }).2.2.2.2.2.2.1
     "xyz" (by decide)⟩

/-- C10: the cache-slot invariant — the stored value is `null` or truthy,
never the empty string — holds of the slot produced at construction and by
`clearCache` (both `{ value: null, expiresAt: 0 }`), is preserved by every
`getWelcomeMessage` call (`healthCheck` never touches the slot, as its
embedding shows), and under it the truthiness-based freshness test of line
41 agrees exactly with the presence-based test, so a non-expired cached
value is never misclassified as stale. -/
theorem c10_cache_invariant (cfg : Config) (c : Cache) (now : Nat) (force : Bool)
    (net : FetchOutcome) (h : cacheWf c = true) :
    cacheWf (getWelcomeMessage cfg c now force net).cache = true ∧
    Cache.init = { value := none, expiresAt := 0 } ∧
    clearCache = { value := none, expiresAt := 0 } ∧
    cacheWf Cache.init = true ∧
    cacheWf clearCache = true ∧
    (∀ n, c.freshAt n = (c.value.isSome && decide (n < c.expiresAt))) := by
  refine ⟨?_, rfl, rfl, rfl, rfl, ?_⟩
  · unfold getWelcomeMessage
    by_cases hg : (!force && c.freshAt now) = true
    · rw [if_pos hg]; exact h
    · rw [if_neg hg]
      cases hfw : fetchWithTimeout net with
      | error e => exact h
      | ok d => exact extractMessage_truthy d
  · intro n
    obtain ⟨val, exp⟩ := c
    cases val with
    | none => rfl
    | some v =>
        have hvt : v.truthy = true := h
        show (v.truthy && decide (exp > n)) = (true && decide (n < exp))
        rw [hvt]

/-- C10 witness: the invariant holds after a forced, timed-out call on the
freshly constructed slot. -/
theorem c10_witness :
    cacheWf (getWelcomeMessage { apiUrl := "u", timeoutMs := 5000, cacheTtlMs := 30000 }
        Cache.init 0 true .timeout).cache = true :=
  (c10_cache_invariant _ Cache.init 0 true .timeout rfl).1

end Sevices
